import Mathlib

/-!
# Verification of the clash-read rule-based proxy router

Shallow embedding of the core of the repository: the tunnel dispatcher
(`tunnel/tunnel.go`), the rule engine (GEOIP from `rules/geoip.go`; the
other rule kinds are not in the sources and are modelled from the spec),
the ShadowSocks outbound adapter (`adapters/util.go`) and the log bus
(`observable/observable.go`).

Go strings are immutable byte sequences; where byte-level fidelity matters
(the destination host serialized on the wire) hosts are modelled as lists
of byte values (`List Nat`, each `< 256`).  External collaborators (the
INI reader, the cipher library, the MMDB reader, the network) are
modelled as explicit oracle parameters.
-/

/-- Byte values of a Lean string, one entry per character.  Models the
byte sequence of a Go string; exact for single-byte characters. -/
def strBytes (s : String) : List Nat :=
  s.data.map Char.toNat

/-- Display form of a byte sequence, used only for log rendering. -/
def bytesToString (l : List Nat) : String :=
  String.mk (l.map Char.ofNat)

/-- `strings.Split` on a one-character separator, on the character list. -/
def charSplit (sep : Char) : List Char → List (List Char)
  | [] => [[]]
  | c :: rest =>
    if c = sep then [] :: charSplit sep rest
    else
      match charSplit sep rest with
      | [] => [[c]]
      | g :: gs => (c :: g) :: gs

/-- `strings.Split(s, sep)` for the one-character separators the source
uses. -/
def goSplit (s : String) (sep : Char) : List String :=
  (charSplit sep s.data).map String.mk

/-- `strings.TrimSpace`, for ASCII whitespace. -/
def goTrim (s : String) : String :=
  String.mk (((s.data.dropWhile Char.isWhitespace).reverse.dropWhile
    Char.isWhitespace).reverse)

/-- Decimal digit value. -/
def digitVal (c : Char) : Option Nat :=
  if ('0' ≤ c ∧ c ≤ '9') then some (c.toNat - '0'.toNat) else none

/-- Accumulating decimal parse of a digit run. -/
def parseNatAux : List Char → Nat → Option Nat
  | [], acc => some acc
  | c :: rest, acc =>
    match digitVal c with
    | some d => parseNatAux rest (acc * 10 + d)
    | none => none

/-- Unsigned decimal parse; `none` on the empty string or a non-digit. -/
def goToNat (s : String) : Option Nat :=
  match s.data with
  | [] => none
  | l => parseNatAux l 0

/-- `strconv.Atoi`: optional sign, then decimal digits; `none` models a
parse error (machine-width overflow is not modelled). -/
def goAtoiOpt (s : String) : Option Int :=
  match s.data with
  | '-' :: rest =>
    (if rest.isEmpty then none else parseNatAux rest 0).map (fun n => -(n : Int))
  | '+' :: rest =>
    (if rest.isEmpty then none else parseNatAux rest 0).map (fun n => (n : Int))
  | l =>
    (if l.isEmpty then none else parseNatAux l 0).map (fun n => (n : Int))

/-- `strconv.Atoi` with the error discarded, as the source does
(`p, _ := strconv.Atoi(...)`; `delay, _ := strconv.Atoi(...)`): 0 on a
malformed string. -/
def goAtoi (s : String) : Int :=
  (goAtoiOpt s).getD 0

/-- `C.Addr` from the constant package (not under src).  Modelled from the
spec §3: destination kind, host, optionally resolved IP, port.  The
`AddrType` values follow the SOCKS constants used by the source:
1 = IPv4, 3 = domain name, 4 = IPv6.  `host` is the byte sequence of the
Go `Host` string; `ip` is `none` when the Go `*net.IP` is nil; `port` is
the decimal string `Port`. -/
structure Addr where
  addrType : Nat
  host : List Nat
  ip : Option (List Nat)
  port : String
deriving DecidableEq, Repr

/-- Modelled from the spec: `Addr.String()` is not under src; §3 gives the
canonical string form `host:port`. -/
def Addr.str (a : Addr) : String :=
  bytesToString a.host ++ ":" ++ a.port

/-- Log levels used by the tunnel (`newLog(INFO, ...)`, `newLog(WARNING, ...)`). -/
inductive LogLevel where
  | info
  | warning
deriving DecidableEq, Repr

/-- A log record sent on the tunnel log channel: level plus rendered message. -/
structure LogRecord where
  level : LogLevel
  msg : String
deriving DecidableEq, Repr

/-- Rendering of `newLog(INFO, "%v match %s using %s", addr.String(),
rule.RuleType().String(), rule.Adapter())`. -/
def matchMsg (a : Addr) (ruleType adapter : String) : String :=
  a.str ++ " match " ++ ruleType ++ " using " ++ adapter

/-- Rendering of `newLog(INFO, "%v doesn't match any rule using DIRECT",
addr.String())`. -/
def noMatchMsg (a : Addr) : String :=
  a.str ++ " doesn\x27t match any rule using DIRECT"

/-- Opaque handle standing for a `core.Cipher` produced by the cipher
library (external collaborator). -/
abbrev Cipher := String

/-- `ShadowSocks` proxy configuration (`adapters/util.go`): server
address, name, cipher.  The traffic meter field carries no data relevant
to the verified claims and is omitted. -/
structure ShadowSocks where
  server : String
  name : String
  cipher : Cipher
deriving DecidableEq, Repr

/-- `C.Proxy` is a Go interface; its implementations in this repository
are Direct, Reject, ShadowSocks and URLTest, so it is embedded as the sum
of those.  URLTest carries its configured members, probe URL and
interval. -/
inductive Proxy where
  | direct
  | reject
  | shadowSocks (ss : ShadowSocks)
  | urlTest (name : String) (members : List Proxy) (url : String) (delaySec : Int)

/-- `C.Rule` is a Go interface with `IsMatch`, `Adapter`, `RuleType`,
`Payload`; embedded as a structure of those observations. -/
structure Rule where
  isMatch : Addr → Bool
  adapter : String
  ruleType : String
  payload : String

/-- The tunnel's proxy map `map[string]C.Proxy`, modelled as an
association list; `lookupProxy` is indexing (`t.proxys[name]`, `none`
standing for a missing key / Go nil), and map assignment conses a new
binding in front, which shadows any older one under lookup. -/
def lookupProxy : List (String × Proxy) → String → Option Proxy
  | [], _ => none
  | (k, v) :: rest, key => if k = key then some v else lookupProxy rest key

/-- Go map assignment `m[k] = v`, observationally (for `lookupProxy`). -/
def mapInsert (k : String) (v : Proxy) (m : List (String × Proxy)) :
    List (String × Proxy) :=
  (k, v) :: m

/-- `Tunnel.match` (tunnel/tunnel.go:240-263).  Traverses the rules in
order; on `rule.IsMatch(addr)` it looks the rule's adapter up in the
proxy map, skipping the rule when absent; on a hit it logs and returns
the proxy; after a full traversal it logs the fallback record and
returns `proxys["DIRECT"]`.  The second component collects the log
records sent on `t.logCh`, in order.  (`match` is a Lean keyword, hence
the name `matchAddr`.) -/
def Tunnel.matchAddr (proxys : List (String × Proxy)) (addr : Addr) :
    List Rule → Option Proxy × List LogRecord
  | [] => (lookupProxy proxys "DIRECT", [⟨LogLevel.info, noMatchMsg addr⟩])
  | r :: rest =>
    if r.isMatch addr then
      match lookupProxy proxys r.adapter with
      | none => Tunnel.matchAddr proxys addr rest
      | some a => (some a, [⟨LogLevel.info, matchMsg addr r.ruleType r.adapter⟩])
    else Tunnel.matchAddr proxys addr rest

/-! ## Rule constructors

Only `rules/geoip.go` is among the sources (`src/unnamed/part_000`); the
other rule kinds are modelled from spec §4.2. -/

/-- `pat.isPrefixOf l ∨ pat occurs later in l`: byte-sequence
containment, used for the keyword matcher. -/
def containsSeq : List Nat → List Nat → Bool
  | [], pat => pat.isEmpty
  | l@(_ :: rest), pat => pat.isPrefixOf l || containsSeq rest pat

/-- Modelled from the spec: rules/domain_suffix.go is not under src.
"DomainSuffix(s): true iff addr.host equals s or ends with "." + s". -/
def NewDomainSuffix (suffix adapter : String) : Rule :=
  { isMatch := fun a =>
      a.host == strBytes suffix || (strBytes ("." ++ suffix)).isSuffixOf a.host,
    adapter := adapter, ruleType := "DomainSuffix", payload := suffix }

/-- Modelled from the spec: rules/domain_keyword.go is not under src.
"DomainKeyword(k): true iff k is a substring of addr.host". -/
def NewDomainKeyword (keyword adapter : String) : Rule :=
  { isMatch := fun a => containsSeq a.host (strBytes keyword),
    adapter := adapter, ruleType := "DomainKeyword", payload := keyword }

/-- Hexadecimal digit value, for IPv6 literals. -/
def hexDigitVal (c : Char) : Option Nat :=
  if ('0' ≤ c ∧ c ≤ '9') then some (c.toNat - '0'.toNat)
  else if ('a' ≤ c ∧ c ≤ 'f') then some (c.toNat - 'a'.toNat + 10)
  else if ('A' ≤ c ∧ c ≤ 'F') then some (c.toNat - 'A'.toNat + 10)
  else none

/-- One `:`-separated group of an IPv6 literal (1 to 4 hex digits). -/
def parseHexGroup (s : String) : Option Nat :=
  if s.length = 0 ∨ s.length > 4 then none
  else s.data.foldl
    (fun acc c =>
      match acc, hexDigitVal c with
      | some n, some d => some (n * 16 + d)
      | _, _ => none)
    (some 0)

/-- Dotted-quad IPv4 literal to its 4 bytes. -/
def parseIPv4 (s : String) : Option (List Nat) :=
  match (goSplit s '.').mapM goToNat with
  | some [a, b, c, d] =>
    if a < 256 ∧ b < 256 ∧ c < 256 ∧ d < 256 then some [a, b, c, d] else none
  | _ => none

/-- 16-bit groups of an IPv6 address to its 16 bytes. -/
def groupBytes (gs : List Nat) : List Nat :=
  gs.foldr (fun g acc => g / 256 % 256 :: g % 256 :: acc) []

/-- IPv6 literal (with optional one `::` abbreviation) to its 16 bytes. -/
def parseIPv6 (s : String) : Option (List Nat) :=
  match s.splitOn "::" with
  | [whole] =>
    match (goSplit whole ':').mapM parseHexGroup with
    | some gs => if gs.length = 8 then some (groupBytes gs) else none
    | none => none
  | [l, r] =>
    let ls := if l = "" then [] else goSplit l ':'
    let rs := if r = "" then [] else goSplit r ':' 
    match ls.mapM parseHexGroup, rs.mapM parseHexGroup with
    | some gl, some gr =>
      if gl.length + gr.length ≤ 7 then
        some (groupBytes (gl ++ List.replicate (8 - gl.length - gr.length) 0 ++ gr))
      else none
    | _, _ => none
  | _ => none

/-- IP literal (v4 or v6) to its bytes. -/
def parseIP (s : String) : Option (List Nat) :=
  (parseIPv4 s).orElse (fun _ => parseIPv6 s)

/-- `"base/bits"` CIDR literal to base bytes and mask length. -/
def parseCIDR (s : String) : Option (List Nat × Nat) :=
  match goSplit s '/' with
  | [base, bits] =>
    match parseIP base, goToNat bits with
    | some ip, some n => if n ≤ ip.length * 8 then some (ip, n) else none
    | _, _ => none
  | _ => none

/-- First `bits` bits of two byte sequences coincide. -/
def bitsEq : List Nat → List Nat → Nat → Bool
  | _, _, 0 => true
  | x :: xs, y :: ys, n =>
    if 8 ≤ n then x == y && bitsEq xs ys (n - 8)
    else (x / 2 ^ (8 - n)) == (y / 2 ^ (8 - n))
  | _, _, _ => false

/-- The 12-byte lead of an IPv4-in-IPv6 mapped address. -/
def v4MappedBytes : List Nat := [0, 0, 0, 0, 0, 0, 0, 0, 0, 0, 255, 255]

/-- `net.IP.To4`-style normalization to 4 bytes. -/
def ipTo4 (ip : List Nat) : Option (List Nat) :=
  if ip.length = 4 then some ip
  else if ip.length = 16 ∧ ip.take 12 = v4MappedBytes then some (ip.drop 12)
  else none

/-- `net.IP.To16`-style normalization to 16 bytes. -/
def ipTo16 (ip : List Nat) : Option (List Nat) :=
  if ip.length = 16 then some ip
  else if ip.length = 4 then some (v4MappedBytes ++ ip)
  else none

/-- Containment of an IP in a CIDR prefix, normalizing the address to
the family of the parsed prefix. -/
def cidrContains (cidr : String) (ip : List Nat) : Bool :=
  match parseCIDR cidr with
  | none => false
  | some (base, bits) =>
    if base.length = 4 then
      match ipTo4 ip with
      | some ip4 => bitsEq base ip4 bits
      | none => false
    else
      match ipTo16 ip with
      | some ip16 => bitsEq base ip16 bits
      | none => false

/-- Modelled from the spec: rules/ipcidr.go is not under src.
"IPCIDR(prefix): matches iff addr.ip is present and contained in the
prefix; if addr.ip is absent, returns false". -/
def NewIPCIDR (cidr adapter : String) : Rule :=
  { isMatch := fun a =>
      match a.ip with
      | none => false
      | some ip => cidrContains cidr ip,
    adapter := adapter, ruleType := "IPCIDR", payload := cidr }

/-- Modelled from the spec: rules/final.go is not under src.
"Final: unconditionally true". -/
def NewFinal (adapter : String) : Rule :=
  { isMatch := fun _ => true, adapter := adapter, ruleType := "FINAL",
    payload := "" }

/-- The country record a `mmdb.Country` lookup yields; only the ISO code
is consumed by the source. -/
structure CountryRecord where
  isoCode : String
deriving DecidableEq, Repr

/-- The MMDB reader (external collaborator), as an oracle: for an IP it
yields the record and an optional error.  Per the geoip2 library a
failed lookup still yields a (zero-valued) record, which is what the
source consumes after discarding the error. -/
structure MMDB where
  country : List Nat → CountryRecord × Option String

/-- `netip.AddrFromSlice`: succeeds exactly on 4- or 16-byte slices. -/
def addrFromSlice (b : List Nat) : Option (List Nat) :=
  if b.length = 4 ∨ b.length = 16 then some b else none

/-- `GEOIP.IsMatch` (src/unnamed/part_000:32-44): nil IP gives false, an
unconvertible slice gives false, otherwise the MMDB record's ISO code is
compared with the configured country — the lookup error is discarded
(`record, _ := mmdb.Country(ip)`). -/
def GEOIP.IsMatch (mmdb : MMDB) (country : String) (addr : Addr) : Bool :=
  match addr.ip with
  | none => false
  | some bytes =>
    match addrFromSlice bytes with
    | none => false
    | some ip => (mmdb.country ip).1.isoCode == country

/-- `NewGEOIP` (src/unnamed/part_000:54-59), with the package-global
MMDB reader passed explicitly. -/
def NewGEOIP (mmdb : MMDB) (country adapter : String) : Rule :=
  { isMatch := GEOIP.IsMatch mmdb country, adapter := adapter,
    ruleType := "GEOIP", payload := country }

/-! ## Configuration and `UpdateConfig` (tunnel/tunnel.go:73-196) -/

/-- One key of an INI section (go-ini, external collaborator):
`key.Name()` and `key.Value()`. -/
structure ConfigKey where
  name : String
  value : String
deriving DecidableEq, Repr

/-- The three sections `UpdateConfig` consumes: `[Proxy]`, `[Rule]`,
`[Proxy Group]`, each as its ordered key list. -/
structure Config where
  proxySection : List ConfigKey
  ruleSection : List ConfigKey
  groupSection : List ConfigKey
deriving DecidableEq, Repr

/-- External collaborators of `UpdateConfig`, as oracles: the config
loader `C.GetConfig`, the cipher library `core.PickCipher` (method and
password to cipher or error), the `adapters.NewURLTest` constructor
(whose source is not under src), and the MMDB reader. -/
structure Env where
  getConfig : Except String Config
  pickCipher : String → String → Except String Cipher
  newURLTest : String → List Proxy → String → Int → Except String Proxy
  mmdb : MMDB

/-- The parsed view of an `ss://cipher:password@server:port` URL.  The
source formats the URL with `fmt.Sprintf` and immediately re-parses it
with `url.Parse`; the URL is modelled structurally, assuming the
interpolated fields carry no URL metacharacters. -/
structure SSURL where
  host : String
  username : String
  password : String
deriving DecidableEq, Repr

/-- `fmt.Sprintf("ss://%s:%s@%s:%s", cipher, password, server, port)`
composed with `url.Parse`. -/
def mkSSURL (cipher password server port : String) : SSURL :=
  ⟨server ++ ":" ++ port, cipher, password⟩

/-- `parseURL` (adapters/util.go:158-176): host, then cipher method and
password from the user-info part. -/
def parseURL (u : SSURL) : String × String × String :=
  (u.host, u.username, u.password)

/-- `NewShadowSocks` (adapters/util.go:134-153): parse the URL, pick the
cipher (error wrapped as `ss <server> initialize error: ...`), build the
proxy value. -/
def NewShadowSocks (pick : String → String → Except String Cipher)
    (name : String) (u : SSURL) : Except String ShadowSocks :=
  match parseURL u with
  | (server, cipher, password) =>
    match pick cipher password with
    | .error e => .error ("ss " ++ server ++ " initialize error: " ++ e)
    | .ok ciph => .ok ⟨server, name, ciph⟩

/-- `trimArr` (tunnel package helper, not under src): trims surrounding
whitespace from each element. -/
def trimArr (arr : List String) : List String :=
  arr.map goTrim

/-- The `[Proxy]` loop of `UpdateConfig` (tunnel/tunnel.go:90-113):
split each value on commas, skip empty splits, trim, handle only the
`ss` kind (skipping short entries), and abort the whole update on a
`NewShadowSocks` error. -/
def parseProxySection (env : Env) :
    List ConfigKey → List (String × Proxy) → Except String (List (String × Proxy))
  | [], m => .ok m
  | k :: ks, m =>
    let parts := goSplit k.value ','
    if parts.length = 0 then parseProxySection env ks m
    else
      let proxy := trimArr parts
      if proxy.getD 0 "" = "ss" then
        if proxy.length < 5 then parseProxySection env ks m
        else
          match NewShadowSocks env.pickCipher k.name
              (mkSSURL (proxy.getD 3 "") (proxy.getD 4 "")
                (proxy.getD 1 "") (proxy.getD 2 "")) with
          | .error e => .error e
          | .ok ss =>
            parseProxySection env ks (mapInsert k.name (Proxy.shadowSocks ss) m)
      else parseProxySection env ks m

/-- The `[Rule]` loop of `UpdateConfig` (tunnel/tunnel.go:116-141):
split each key name on commas, skip entries shorter than 3, trim, and
append the constructed rule; unknown types are skipped. -/
def parseRuleSection (env : Env) : List ConfigKey → List Rule
  | [] => []
  | k :: ks =>
    let parts := goSplit k.name ','
    if parts.length < 3 then parseRuleSection env ks
    else
      let rule := trimArr parts
      let r0 := rule.getD 0 ""
      (if r0 = "DOMAIN-SUFFIX" then [NewDomainSuffix (rule.getD 1 "") (rule.getD 2 "")]
       else if r0 = "DOMAIN-KEYWORD" then [NewDomainKeyword (rule.getD 1 "") (rule.getD 2 "")]
       else if r0 = "GEOIP" then [NewGEOIP env.mmdb (rule.getD 1 "") (rule.getD 2 "")]
       else if r0 = "IP-CIDR" ∨ r0 = "IP-CIDR6" then [NewIPCIDR (rule.getD 1 "") (rule.getD 2 "")]
       else if r0 = "FINAL" then [NewFinal (rule.getD 2 "")]
       else [])
      ++ parseRuleSection env ks

/-- The `[Proxy Group]` loop of `UpdateConfig` (tunnel/tunnel.go:144-173):
split each value on commas, skip entries shorter than 4, trim, handle
only `url-test`: member names are `rule[1 : len-2]`, probe URL is the
second-to-last field, the interval the last; members missing from the
proxy map are silently dropped; a `NewURLTest` error aborts the update
wrapped as `Config error: ...`. -/
def parseGroupSection (env : Env) :
    List ConfigKey → List (String × Proxy) → Except String (List (String × Proxy))
  | [], m => .ok m
  | k :: ks, m =>
    let parts := goSplit k.value ','
    if parts.length < 4 then parseGroupSection env ks m
    else
      let rule := trimArr parts
      if rule.getD 0 "" = "url-test" then
        let proxyNames := (rule.drop 1).take (rule.length - 3)
        let delay := goAtoi (rule.getD (rule.length - 1) "")
        let url := rule.getD (rule.length - 2) ""
        let ps := proxyNames.filterMap (fun n => lookupProxy m n)
        match env.newURLTest k.name ps url delay with
        | .error e => .error ("Config error: " ++ e)
        | .ok adapter => parseGroupSection env ks (mapInsert k.name adapter m)
      else parseGroupSection env ks m

/-- The configuration the tunnel has installed: its rule list and proxy
map (the two fields `Tunnel.rules` and `Tunnel.proxys` that
`UpdateConfig` replaces and `match` reads). -/
structure TunnelState where
  rules : List Rule
  proxys : List (String × Proxy)

/-- `Tunnel.UpdateConfig` (tunnel/tunnel.go:73-196): load the config,
build the new proxy map and rule list entirely, add the built-in
`DIRECT` and `REJECT` entries (the source assigns `DIRECT` first, then
`REJECT`), and only then install both — any error on the way leaves the
caller with the error and no installation.  The stopping of replaced
url-test probers is an effect on the old adapters, not on the installed
state, and is not modelled. -/
def Tunnel.UpdateConfig (env : Env) (t : TunnelState) : Except String TunnelState :=
  match env.getConfig with
  | .error e => .error e
  | .ok cfg =>
    match parseProxySection env cfg.proxySection [] with
    | .error e => .error e
    | .ok proxys =>
      let rules := parseRuleSection env cfg.ruleSection
      match parseGroupSection env cfg.groupSection proxys with
      | .error e => .error e
      | .ok proxys1 =>
        .ok { t with
              proxys := mapInsert "REJECT" Proxy.reject
                          (mapInsert "DIRECT" Proxy.direct proxys1),
              rules := rules }

/-- The installed configuration as the caller observes it after a call
to `UpdateConfig`: on success the new snapshot, on error the old one
(the source returns before the locked assignment on every error path). -/
def tunnelAfterUpdate (env : Env) (t : TunnelState) : TunnelState :=
  match Tunnel.UpdateConfig env t with
  | .ok t2 => t2
  | .error _ => t

/-! ## SOCKS address serialization (adapters/util.go:180-209) -/

/-- `serializesSocksAddr`: ATYP byte, for domains a one-byte length and
the raw host bytes, for IPs the `To4`/`To16` normalized bytes, then the
big-endian two-byte port parsed by `strconv.Atoi` with the error
discarded.  `uint8` conversions truncate mod 256.  An unknown ATYP
leaves `buf` nil, joined to the empty slice.  A nil `To4`/`To16` result
contributes no bytes. -/
def serializesSocksAddr (addr : Addr) : List Nat :=
  let p : Int := goAtoi addr.port
  let port : List Nat := [((p.fdiv (2 ^ 8)).emod 256).toNat, (p.emod 256).toNat]
  if addr.addrType = 3 then
    [3, addr.host.length % 256] ++ addr.host ++ port
  else if addr.addrType = 1 then
    [1] ++ (match ipTo4 (addr.ip.getD []) with
            | some h => h
            | none => []) ++ port
  else if addr.addrType = 4 then
    [4] ++ (match ipTo16 (addr.ip.getD []) with
            | some h => h
            | none => []) ++ port
  else []

/-- Decoder following the §6.2 framing: ATYP byte, optional one-byte
domain length, raw address bytes, two-byte big-endian port.  Yields the
ATYP, the raw address bytes and the port, refusing trailing garbage. -/
def decodeSocksAddr (b : List Nat) : Option (Nat × List Nat × Nat) :=
  match b with
  | 1 :: rest =>
    match rest.drop 4 with
    | [hi, lo] => some (1, rest.take 4, hi * 256 + lo)
    | _ => none
  | 3 :: len :: rest =>
    match rest.drop len with
    | [hi, lo] => some (3, rest.take len, hi * 256 + lo)
    | _ => none
  | 4 :: rest =>
    match rest.drop 16 with
    | [hi, lo] => some (4, rest.take 16, hi * 256 + lo)
    | _ => none
  | _ => none

/-! ## ShadowSocks connection generation (adapters/util.go:110-128) -/

/-- Opaque handle for a `net.Conn`. -/
structure Conn where
  id : Nat
deriving DecidableEq, Repr

/-- The network, as an oracle: `net.Dial` outcome per address, the
cipher's `StreamConn` wrapping, and the outcome of the header write
(`none` is success; the written byte count is not consumed by the
source).  `SetKeepAlive` is an effect on the socket with no modelled
state. -/
structure NetOracle where
  dial : String → Except String Conn
  streamConn : Cipher → Conn → Conn
  write : Conn → List Nat → Option String

/-- `NewTrafficTrack` (adapters/util.go:51-55): wraps a connection for
byte counting. -/
structure TrafficTrack where
  conn : Conn
deriving DecidableEq, Repr

/-- `ShadowsocksAdapter` (adapters/util.go:74-76): the ProxyAdapter
handed back by `Generator`. -/
structure ShadowsocksAdapter where
  conn : TrafficTrack
deriving DecidableEq, Repr

/-- `ShadowSocks.Generator` (adapters/util.go:110-128): dial the server
(on error return nil adapter and `<server> connect error`), wrap in the
cipher stream, write the serialized destination address, and return the
adapter **together with the write error** — the pair mirrors Go's
`(adapter C.ProxyAdapter, err error)` multi-value return. -/
def ShadowSocks.Generator (ss : ShadowSocks) (net : NetOracle) (addr : Addr) :
    Option ShadowsocksAdapter × Option String :=
  match net.dial ss.server with
  | .error _ => (none, some (ss.server ++ " connect error"))
  | .ok c0 =>
    let c := net.streamConn ss.cipher c0
    let werr := net.write c (serializesSocksAddr addr)
    (some ⟨⟨c⟩⟩, werr)

/-! ## Observable (observable/observable.go) -/

/-- The observable's mutable state: `done` plus the keys currently in
the `listener` sync.Map.  Subscriber handles (their `Out()` channels)
are modelled as naturals; `nextId` is the freshness source for new
handles (`newSubscriber()` always yields a channel distinct from every
live one). -/
structure ObservableState where
  nextId : Nat
  listeners : List Nat
  done : Bool
deriving DecidableEq, Repr

/-- `Observable.Subscribe` (observable/observable.go:57-76): under the
done-lock read, a closed bus yields `(nil, error)` and no state change;
otherwise a fresh subscriber is created and stored under its own out
channel, which is returned with a nil error.  Result:
(subscription, error, state after the call). -/
def Observable.Subscribe (o : ObservableState) :
    Option Nat × Option String × ObservableState :=
  if o.done then
    (none, some "Observable is closed", o)
  else
    (some o.nextId, none,
      { o with nextId := o.nextId + 1, listeners := o.nextId :: o.listeners })

/-- `Observable.UnSubscribe` (observable/observable.go:80-97): a handle
absent from the listener map leaves the state untouched and closes
nothing; a present handle is deleted from the map and its subscriber
closed.  The second component reports the closed handle, if any. -/
def Observable.UnSubscribe (o : ObservableState) (sub : Nat) :
    ObservableState × Option Nat :=
  if o.listeners.contains sub then
    ({ o with listeners := o.listeners.erase sub }, some sub)
  else
    (o, none)

/-- `Observable.close` (observable/observable.go:39-53): sets `done` and
closes every subscriber; listed for the bus life cycle (`Subscribe`
consults `done`). -/
def Observable.close (o : ObservableState) : ObservableState × List Nat :=
  ({ o with done := true }, o.listeners)

/-! ## Sample data for concrete evaluations -/

/-- A domain-typed destination address. -/
def addrSample : Addr := ⟨3, strBytes "example.com", none, "80"⟩

/-- An IPv4-typed destination address with a resolved IP. -/
def addrV4 : Addr := ⟨1, strBytes "1.2.3.4", some [1, 2, 3, 4], "80"⟩

/-- An MMDB oracle whose every lookup fails, yielding the zero-valued
record the geoip2 library hands back alongside an error. -/
def mmdbErr : MMDB := ⟨fun _ => (⟨""⟩, some "lookup failed")⟩

/-- A ShadowSocks proxy configuration. -/
def ssSample : ShadowSocks := ⟨"srv:443", "mySS", "aes-256-cfb"⟩

/-- A network oracle on which dialing succeeds and the header write
fails. -/
def netWriteFail : NetOracle :=
  ⟨fun _ => .ok ⟨7⟩, fun _ c => c, fun _ _ => some "write failed"⟩

/-- An environment whose config holds one `[Proxy]` entry of kind `ss`
whose cipher the cipher library rejects. -/
def envBad : Env :=
  { getConfig := .ok ⟨[⟨"bad", "ss, server.com, 443, rc4-md5, password"⟩], [], []⟩,
    pickCipher := fun _ _ => .error "unsupported cipher",
    newURLTest := fun n ps u d => .ok (Proxy.urlTest n ps u d),
    mmdb := ⟨fun _ => (⟨"US"⟩, none)⟩ }

/-- An environment whose config is empty and whose oracles all succeed. -/
def envEmpty : Env :=
  { getConfig := .ok ⟨[], [], []⟩,
    pickCipher := fun _ _ => .ok "cipher",
    newURLTest := fun n ps u d => .ok (Proxy.urlTest n ps u d),
    mmdb := ⟨fun _ => (⟨"US"⟩, none)⟩ }

/-- A tunnel with no installed rules or proxies. -/
def tEmpty : TunnelState := ⟨[], []⟩

/-- A `[Proxy]` entry is malformed when it reaches `NewShadowSocks` and
the construction fails: its (trimmed, comma-split) value has kind `ss`,
at least 5 fields, and the cipher library rejects it. -/
def malformedProxyEntry (env : Env) (k : ConfigKey) : Prop :=
  let proxy := trimArr (goSplit k.value ',')
  proxy.getD 0 "" = "ss" ∧ 5 ≤ proxy.length ∧
    ∃ e, NewShadowSocks env.pickCipher k.name
      (mkSSURL (proxy.getD 3 "") (proxy.getD 4 "")
        (proxy.getD 1 "") (proxy.getD 2 "")) = .error e

/-- The address bytes `serializesSocksAddr` is meant to carry: the host
bytes for a domain address, the IP bytes otherwise. -/
def socksPayload (addr : Addr) : List Nat :=
  if addr.addrType = 3 then addr.host else addr.ip.getD []

/-! ## Helper lemmas -/

/-- A malformed entry anywhere in the `[Proxy]` section makes the proxy
parsing loop fail, whatever map it has accumulated. -/
theorem parseProxySection_error_of_malformed (env : Env) (ks : List ConfigKey)
    (hk : ∃ k ∈ ks, malformedProxyEntry env k) (m : List (String × Proxy)) :
    ∃ e, parseProxySection env ks m = .error e := by
  induction ks generalizing m with
  | nil => simp at hk
  | cons k rest ih =>
    rcases hk with ⟨k2, hk2mem, hk2⟩
    rcases List.mem_cons.mp hk2mem with hhead | htail
    · subst hhead
      rcases hk2 with ⟨hss, hlen, e, he⟩
      have hlen2 : (goSplit k2.value ',').length ≠ 0 := by
        have : (trimArr (goSplit k2.value ',')).length = (goSplit k2.value ',').length := by
          simp [trimArr]
        omega
      refine ⟨e, ?_⟩
      simp only [parseProxySection, hlen2, if_false, hss, if_true]
      have hnot : ¬ (trimArr (goSplit k2.value ',')).length < 5 := by omega
      simp only [hnot, if_false, he]
    · simp only [parseProxySection]
      by_cases h0 : (goSplit k.value ',').length = 0
      · simp only [h0, if_true]
        exact ih ⟨k2, htail, hk2⟩ m
      · simp only [h0, if_false]
        by_cases hss : (trimArr (goSplit k.value ',')).getD 0 "" = "ss"
        · simp only [hss, if_true]
          by_cases hlen : (trimArr (goSplit k.value ',')).length < 5
          · simp only [hlen, if_true]
            exact ih ⟨k2, htail, hk2⟩ m
          · simp only [hlen, if_false]
            cases hns : NewShadowSocks env.pickCipher k.name
                (mkSSURL ((trimArr (goSplit k.value ',')).getD 3 "")
                  ((trimArr (goSplit k.value ',')).getD 4 "")
                  ((trimArr (goSplit k.value ',')).getD 1 "")
                  ((trimArr (goSplit k.value ',')).getD 2 "")) with
            | error e => exact ⟨e, rfl⟩
            | ok ss => exact ih ⟨k2, htail, hk2⟩ _
        · simp only [hss, if_false]
          exact ih ⟨k2, htail, hk2⟩ m

/-- When the proxy map holds a `DIRECT` entry, the traversal of any rule
list produces a proxy: a hit returns one, and the fallback lookup
succeeds. -/
theorem matchAddr_isSome_of_direct (proxys : List (String × Proxy)) (addr : Addr)
    (d : Proxy) (hd : lookupProxy proxys "DIRECT" = some d) :
    ∀ rules, (Tunnel.matchAddr proxys addr rules).1.isSome := by
  intro rules
  induction rules with
  | nil => simp [Tunnel.matchAddr, hd]
  | cons r rest ih =>
    simp only [Tunnel.matchAddr]
    cases hmatch : r.isMatch addr with
    | false => simpa [hmatch] using ih
    | true =>
      cases hl : lookupProxy proxys r.adapter with
      | none => simpa [hmatch, hl] using ih
      | some a => simp [hmatch, hl]

/-- The two serialized port bytes recompose to the port value when it
fits a u16. -/
theorem portBytesVal (n : Nat) (h : n < 65536) :
    ((((n : Int)).fdiv (2 ^ 8)).emod 256).toNat * 256 + (((n : Int)).emod 256).toNat = n := by
  have h1 : ((n : Int)).fdiv (2 ^ 8) = ((n / 256 : Nat) : Int) := by
    rw [show ((2 : Int) ^ 8) = ((256 : Nat) : Int) by norm_num]
    exact (Int.ofNat_fdiv n 256).symm
  have h2 : (((n / 256 : Nat) : Int)).emod 256 = ((n / 256 % 256 : Nat) : Int) := by
    norm_cast
  have h3 : (((n : Nat) : Int)).emod 256 = ((n % 256 : Nat) : Int) := by
    norm_cast
  rw [h1, h2, h3]
  simp only [Int.toNat_natCast]
  omega

/-! ## Claims -/

/-- C1: for every address and configuration snapshot, `Tunnel.match`
traverses the rule list in declared order and returns the proxy bound to
the first rule whose predicate holds and whose adapter name resolves in
the proxy map; the rules after it (here arbitrary) never influence the
result. -/
theorem match_first_resolvable_rule_wins
    (pre : List Rule) (r : Rule) (post : List Rule)
    (proxys : List (String × Proxy)) (addr : Addr) (a : Proxy)
    (hpre : ∀ r2 ∈ pre, r2.isMatch addr = true → lookupProxy proxys r2.adapter = none)
    (hm : r.isMatch addr = true)
    (ha : lookupProxy proxys r.adapter = some a) :
    (Tunnel.matchAddr proxys addr (pre ++ r :: post)).1 = some a := by
  induction pre with
  | nil => simp [Tunnel.matchAddr, hm, ha]
  | cons r2 rest ih =>
    have h2 := hpre r2 (by simp)
    simp only [List.cons_append, Tunnel.matchAddr]
    cases hmatch : r2.isMatch addr with
    | false =>
      simp only [hmatch, Bool.false_eq_true, if_false]
      exact ih (fun r3 h3 => hpre r3 (by simp [h3]))
    | true =>
      simp only [hmatch, if_true, h2 hmatch]
      exact ih (fun r3 h3 => hpre r3 (by simp [h3]))

/-- C1 witness: a skipped miss (unknown adapter) followed by the first
resolvable match `p1`; the rule after it would also match but does not
influence the result. -/
theorem match_first_resolvable_rule_wins_witness :
    (Tunnel.matchAddr [("p1", Proxy.reject), ("DIRECT", Proxy.direct)] addrSample
      ([NewFinal "MISSING"] ++ NewFinal "p1" :: [NewFinal "p3"])).1 = some Proxy.reject :=
  match_first_resolvable_rule_wins [NewFinal "MISSING"] (NewFinal "p1") [NewFinal "p3"]
    [("p1", Proxy.reject), ("DIRECT", Proxy.direct)] addrSample Proxy.reject
    (by
      intro r2 hr2 hm
      simp only [List.mem_singleton] at hr2
      subst hr2
      rfl)
    rfl rfl

/-- C2: when no rule both matches the address and resolves in the proxy
map, `Tunnel.match` returns the proxy stored under `DIRECT` and emits
exactly one log record, an INFO record whose message carries
`doesn't match any rule using DIRECT`. -/
theorem match_no_hit_uses_direct
    (rules : List Rule) (proxys : List (String × Proxy)) (addr : Addr) (d : Proxy)
    (hd : lookupProxy proxys "DIRECT" = some d)
    (h : ∀ r ∈ rules, r.isMatch addr = true → lookupProxy proxys r.adapter = none) :
    Tunnel.matchAddr proxys addr rules =
      (some d, [⟨LogLevel.info,
        addr.str ++ " doesn\x27t match any rule using DIRECT"⟩]) := by
  induction rules with
  | nil => simp [Tunnel.matchAddr, hd, noMatchMsg]
  | cons r rest ih =>
    have h2 := h r (by simp)
    simp only [Tunnel.matchAddr]
    cases hmatch : r.isMatch addr with
    | false =>
      simp only [hmatch, Bool.false_eq_true, if_false]
      exact ih (fun r3 h3 => h r3 (by simp [h3]))
    | true =>
      simp only [hmatch, if_true, h2 hmatch]
      exact ih (fun r3 h3 => h r3 (by simp [h3]))

/-- C2 witness: one non-matching rule plus one whose adapter is unknown;
the traversal falls through to the `DIRECT` proxy and the fallback log. -/
theorem match_no_hit_uses_direct_witness :
    Tunnel.matchAddr [("DIRECT", Proxy.direct)] addrSample
      [NewDomainSuffix "other.com" "p1", NewFinal "MISSING"] =
      (some Proxy.direct, [⟨LogLevel.info,
        addrSample.str ++ " doesn\x27t match any rule using DIRECT"⟩]) :=
  match_no_hit_uses_direct [NewDomainSuffix "other.com" "p1", NewFinal "MISSING"]
    [("DIRECT", Proxy.direct)] addrSample Proxy.direct rfl
    (by
      intro r2 hr2 hm
      rcases List.mem_cons.mp hr2 with h1 | h1
      · subst h1
        exact absurd hm (by decide)
      · simp only [List.mem_singleton] at h1
        subst h1
        rfl)

/-- C3 counterexample: a rule that matches the address but names an
unknown adapter.  The complete evaluation of `Tunnel.match` shows that
the only record sent to the log channel is the final no-match fallback
record: the source's missing-adapter branch (`if !ok \x7b continue \x7d`)
emits nothing, contradicting the claim that an INFO record is emitted
for the miss. -/
theorem match_missing_adapter_emits_no_log :
    Tunnel.matchAddr [("DIRECT", Proxy.direct)] addrSample [NewFinal "NONEXISTENT"] =
      (some Proxy.direct, [⟨LogLevel.info, noMatchMsg addrSample⟩]) := rfl

/-- C3 amended: whenever a rule's predicate matches the address but its
adapter name is absent from the proxy map, evaluation continues with the
next rule in order — the traversal is never aborted — and no log record
is emitted for the missing adapter (the outcome, result and logs alike,
is exactly that of traversing the remaining rules). -/
theorem match_missing_adapter_skips
    (r : Rule) (rest : List Rule) (proxys : List (String × Proxy)) (addr : Addr)
    (hm : r.isMatch addr = true)
    (hmiss : lookupProxy proxys r.adapter = none) :
    Tunnel.matchAddr proxys addr (r :: rest) = Tunnel.matchAddr proxys addr rest := by
  simp [Tunnel.matchAddr, hm, hmiss]

/-- C3 amended witness: dropping the miss rule leaves the traversal
outcome unchanged. -/
theorem match_missing_adapter_skips_witness :
    Tunnel.matchAddr [("DIRECT", Proxy.direct)] addrSample
        (NewFinal "NONEXISTENT" :: [NewFinal "DIRECT"]) =
      Tunnel.matchAddr [("DIRECT", Proxy.direct)] addrSample [NewFinal "DIRECT"] :=
  match_missing_adapter_skips (NewFinal "NONEXISTENT") [NewFinal "DIRECT"]
    [("DIRECT", Proxy.direct)] addrSample rfl rfl

/-- C4: `UpdateConfig` is transactional.  A malformed `[Proxy]` entry
(one that reaches the cipher library and is rejected) makes
`UpdateConfig` return an error; under that hypothesis the installed
state is unchanged, and — last conjunct, for every environment — any
error return whatsoever leaves the previously installed rules and proxy
map exactly as they were. -/
theorem UpdateConfig_transactional (env : Env) (t : TunnelState) (cfg : Config)
    (hcfg : env.getConfig = .ok cfg)
    (hmal : ∃ k ∈ cfg.proxySection, malformedProxyEntry env k) :
    (∃ e, Tunnel.UpdateConfig env t = .error e) ∧
    tunnelAfterUpdate env t = t ∧
    (∀ (env2 : Env) (t2 : TunnelState) (e : String),
      Tunnel.UpdateConfig env2 t2 = .error e → tunnelAfterUpdate env2 t2 = t2) := by
  obtain ⟨e, he⟩ := parseProxySection_error_of_malformed env cfg.proxySection hmal []
  have herr : Tunnel.UpdateConfig env t = .error e := by
    simp only [Tunnel.UpdateConfig, hcfg, he]
  refine ⟨⟨e, herr⟩, ?_, ?_⟩
  · simp [tunnelAfterUpdate, herr]
  · intro env2 t2 e2 h2
    simp [tunnelAfterUpdate, h2]

/-- C4 witness: the one-entry `[Proxy]` section whose cipher is rejected
makes `UpdateConfig` fail and leaves the (empty) installed state as it
was. -/
theorem UpdateConfig_transactional_witness :
    (∃ e, Tunnel.UpdateConfig envBad tEmpty = .error e) ∧
      tunnelAfterUpdate envBad tEmpty = tEmpty :=
  have h := UpdateConfig_transactional envBad tEmpty
    ⟨[⟨"bad", "ss, server.com, 443, rc4-md5, password"⟩], [], []⟩ rfl
    ⟨⟨"bad", "ss, server.com, 443, rc4-md5, password"⟩, by simp,
      rfl, by decide,
      ⟨"ss server.com:443 initialize error: unsupported cipher", rfl⟩⟩
  ⟨h.1, h.2.1⟩

/-- C5 counterexample: on a network where the dial succeeds and the
write of the destination-address header fails, `ShadowSocks.Generator`
returns a non-nil ProxyAdapter together with the error — the source's
final `return &ShadowsocksAdapter\x7b...\x7d, err` does not discard the
adapter on a write error, contradicting the claim that an error at the
write step yields no adapter. -/
theorem Generator_returns_adapter_on_write_error :
    (ShadowSocks.Generator ssSample netWriteFail addrV4).1 = some ⟨⟨⟨7⟩⟩⟩ ∧
    (ShadowSocks.Generator ssSample netWriteFail addrV4).2 = some "write failed" :=
  ⟨rfl, rfl⟩

/-- C5 amended: `Generator` yields no adapter only when the dial fails
(with the `connect error` message); when the dial succeeds it always
returns a non-nil adapter over the cipher-wrapped connection, paired
with the outcome of the address-header write, so the caller must treat
a returned error as failure despite the non-nil adapter. -/
theorem Generator_spec (ss : ShadowSocks) (net : NetOracle) (addr : Addr) :
    (∀ e, net.dial ss.server = .error e →
        ShadowSocks.Generator ss net addr =
          (none, some (ss.server ++ " connect error"))) ∧
    (∀ c, net.dial ss.server = .ok c →
        ShadowSocks.Generator ss net addr =
          (some ⟨⟨net.streamConn ss.cipher c⟩⟩,
            net.write (net.streamConn ss.cipher c) (serializesSocksAddr addr))) := by
  constructor
  · intro e he
    simp [ShadowSocks.Generator, he]
  · intro c hc
    simp [ShadowSocks.Generator, hc]

/-- C5 amended witness: the dial-succeeds branch evaluated on the
write-failing network. -/
theorem Generator_spec_witness :
    ShadowSocks.Generator ssSample netWriteFail addrV4 =
      (some ⟨⟨⟨7⟩⟩⟩, some "write failed") :=
  (Generator_spec ssSample netWriteFail addrV4).2 ⟨7⟩ rfl

/-- C6 counterexample: a lookup that errors (yielding, as the geoip2
library does, a zero-valued record with an empty ISO code) together with
a rule configured with the empty country code: `GEOIP.IsMatch` returns
true, contradicting the claim that it returns false whenever the MMDB
lookup errors — the source discards the error and compares the record
regardless. -/
theorem GEOIP_IsMatch_true_on_error :
    (mmdbErr.country [1, 2, 3, 4]).2 = some "lookup failed" ∧
    GEOIP.IsMatch mmdbErr "" addrV4 = true :=
  ⟨rfl, rfl⟩

/-- C6 amended: `GEOIP.IsMatch` returns true iff the address IP is
present, is a 4- or 16-byte slice, and the record the MMDB lookup hands
back — error or not — has an ISO code equal (case-sensitively) to the
configured country; the lookup error itself is ignored, so on an
errored lookup the zero record's empty code is what gets compared. -/
theorem GEOIP_IsMatch_iff (mmdb : MMDB) (country : String) (addr : Addr) :
    GEOIP.IsMatch mmdb country addr = true ↔
      ∃ bytes, addr.ip = some bytes ∧ (bytes.length = 4 ∨ bytes.length = 16) ∧
        (mmdb.country bytes).1.isoCode = country := by
  unfold GEOIP.IsMatch
  cases hip : addr.ip with
  | none => simp
  | some bytes =>
    unfold addrFromSlice
    by_cases hlen : bytes.length = 4 ∨ bytes.length = 16
    · simp [hlen]
    · simp [hlen]

/-- C6 amended witness: a successful lookup whose record code matches. -/
theorem GEOIP_IsMatch_iff_witness :
    GEOIP.IsMatch ⟨fun _ => (⟨"US"⟩, none)⟩ "US" addrV4 = true :=
  (GEOIP_IsMatch_iff ⟨fun _ => (⟨"US"⟩, none)⟩ "US" addrV4).mpr
    ⟨[1, 2, 3, 4], rfl, Or.inl rfl, rfl⟩

/-- C7: for every address of the three SOCKS5 kinds — IPv4 with a
4-byte IP, IPv6 with a 16-byte IP, or a domain of at most 255 bytes —
whose port string parses as a decimal integer below 65536, decoding the
output of `serializesSocksAddr` by the §6.2 framing (ATYP byte, optional
one-byte domain length, raw address bytes, two-byte big-endian port)
recovers the original host-or-IP bytes and the original port. -/
theorem serializesSocksAddr_roundtrip (addr : Addr) (n : Nat)
    (hp : goAtoiOpt addr.port = some ((n : Nat) : Int)) (hn : n < 65536)
    (h : (addr.addrType = 1 ∧ ∃ ip, addr.ip = some ip ∧ ip.length = 4) ∨
         (addr.addrType = 4 ∧ ∃ ip, addr.ip = some ip ∧ ip.length = 16) ∨
         (addr.addrType = 3 ∧ addr.host.length ≤ 255)) :
    decodeSocksAddr (serializesSocksAddr addr) =
      some (addr.addrType, socksPayload addr, n) := by
  have hport := portBytesVal n hn
  rcases h with ⟨ht, ip, hip, hlen⟩ | ⟨ht, ip, hip, hlen⟩ | ⟨ht, hlen⟩
  · have h4 : ipTo4 ip = some ip := by simp [ipTo4, hlen]
    have hser : serializesSocksAddr addr =
        1 :: (ip ++ [((((n : Int)).fdiv (2 ^ 8)).emod 256).toNat,
                     (((n : Int)).emod 256).toNat]) := by
      simp [serializesSocksAddr, goAtoi, hp, ht, hip, h4]
    have hdrop : (ip ++ [((((n : Int)).fdiv (2 ^ 8)).emod 256).toNat,
        (((n : Int)).emod 256).toNat]).drop 4 =
        [((((n : Int)).fdiv (2 ^ 8)).emod 256).toNat, (((n : Int)).emod 256).toNat] :=
      List.drop_left' hlen
    have htake : (ip ++ [((((n : Int)).fdiv (2 ^ 8)).emod 256).toNat,
        (((n : Int)).emod 256).toNat]).take 4 = ip :=
      List.take_left' hlen
    rw [hser]
    simp only [decodeSocksAddr, hdrop, htake, hport]
    simp [socksPayload, ht, hip]
  · have h16 : ipTo16 ip = some ip := by simp [ipTo16, hlen]
    have hser : serializesSocksAddr addr =
        4 :: (ip ++ [((((n : Int)).fdiv (2 ^ 8)).emod 256).toNat,
                     (((n : Int)).emod 256).toNat]) := by
      simp [serializesSocksAddr, goAtoi, hp, ht, hip, h16]
    have hdrop : (ip ++ [((((n : Int)).fdiv (2 ^ 8)).emod 256).toNat,
        (((n : Int)).emod 256).toNat]).drop 16 =
        [((((n : Int)).fdiv (2 ^ 8)).emod 256).toNat, (((n : Int)).emod 256).toNat] :=
      List.drop_left' hlen
    have htake : (ip ++ [((((n : Int)).fdiv (2 ^ 8)).emod 256).toNat,
        (((n : Int)).emod 256).toNat]).take 16 = ip :=
      List.take_left' hlen
    rw [hser]
    simp only [decodeSocksAddr, hdrop, htake, hport]
    simp [socksPayload, ht, hip]
  · have hmod : addr.host.length % 256 = addr.host.length := Nat.mod_eq_of_lt (by omega)
    have hser : serializesSocksAddr addr =
        3 :: addr.host.length :: (addr.host ++
          [((((n : Int)).fdiv (2 ^ 8)).emod 256).toNat, (((n : Int)).emod 256).toNat]) := by
      simp [serializesSocksAddr, goAtoi, hp, ht, hmod]
    have hdrop : (addr.host ++ [((((n : Int)).fdiv (2 ^ 8)).emod 256).toNat,
        (((n : Int)).emod 256).toNat]).drop addr.host.length =
        [((((n : Int)).fdiv (2 ^ 8)).emod 256).toNat, (((n : Int)).emod 256).toNat] :=
      List.drop_left' rfl
    have htake : (addr.host ++ [((((n : Int)).fdiv (2 ^ 8)).emod 256).toNat,
        (((n : Int)).emod 256).toNat]).take addr.host.length = addr.host :=
      List.take_left' rfl
    rw [hser]
    simp only [decodeSocksAddr, hdrop, htake, hport]
    simp [socksPayload, ht]

/-- C7 witness: the IPv4 sample address round-trips to its IP bytes and
port 80. -/
theorem serializesSocksAddr_roundtrip_witness :
    decodeSocksAddr (serializesSocksAddr addrV4) =
      some (addrV4.addrType, socksPayload addrV4, 80) :=
  serializesSocksAddr_roundtrip addrV4 80 rfl (by norm_num)
    (Or.inl ⟨rfl, [1, 2, 3, 4], rfl, rfl⟩)

/-- C8: `Observable.Subscribe` after the bus reached done returns a nil
subscription with the closed-bus error and registers nothing (the state
is untouched); before that point it returns a fresh subscription (under
the freshness invariant, one not yet in the listener set) with a nil
error and adds exactly that one subscriber. -/
theorem Subscribe_spec (o : ObservableState) :
    (o.done = true →
        Observable.Subscribe o = (none, some "Observable is closed", o)) ∧
    (o.done = false →
        (Observable.Subscribe o).1 = some o.nextId ∧
        (Observable.Subscribe o).2.1 = none ∧
        (Observable.Subscribe o).2.2.listeners = o.nextId :: o.listeners ∧
        (Observable.Subscribe o).2.2.done = false ∧
        ((∀ x ∈ o.listeners, x < o.nextId) → o.nextId ∉ o.listeners)) := by
  constructor
  · intro h
    simp [Observable.Subscribe, h]
  · intro h
    refine ⟨by simp [Observable.Subscribe, h], by simp [Observable.Subscribe, h],
      by simp [Observable.Subscribe, h], by simp [Observable.Subscribe, h], ?_⟩
    intro hall hmem
    exact absurd (hall _ hmem) (lt_irrefl _)

/-- C8 witness: a closed bus rejects the subscription unchanged; an open
bus registers exactly one new subscriber. -/
theorem Subscribe_spec_witness :
    Observable.Subscribe ⟨5, [3], true⟩ = (none, some "Observable is closed", ⟨5, [3], true⟩) ∧
    (Observable.Subscribe ⟨5, [3], false⟩).2.2.listeners = 5 :: [3] :=
  ⟨(Subscribe_spec ⟨5, [3], true⟩).1 rfl, ((Subscribe_spec ⟨5, [3], false⟩).2 rfl).2.2.1⟩

/-- C9: every successful `UpdateConfig` installs a proxy map whose
`DIRECT` and `REJECT` keys hold the built-in adapters (the assignments
after the parsing loops shadow any same-named `[Proxy]` entries), so the
fallback lookup of `match` always finds a proxy: on the installed
snapshot, `match` yields a proxy for every address. -/
theorem UpdateConfig_installs_builtins (env : Env) (t t2 : TunnelState)
    (h : Tunnel.UpdateConfig env t = .ok t2) :
    lookupProxy t2.proxys "DIRECT" = some Proxy.direct ∧
    lookupProxy t2.proxys "REJECT" = some Proxy.reject ∧
    ∀ addr, (Tunnel.matchAddr t2.proxys addr t2.rules).1.isSome := by
  cases hg : env.getConfig with
  | error e => simp [Tunnel.UpdateConfig, hg] at h
  | ok cfg =>
    cases hp : parseProxySection env cfg.proxySection [] with
    | error e => simp [Tunnel.UpdateConfig, hg, hp] at h
    | ok m0 =>
      cases hq : parseGroupSection env cfg.groupSection m0 with
      | error e => simp [Tunnel.UpdateConfig, hg, hp, hq] at h
      | ok m1 =>
        simp only [Tunnel.UpdateConfig, hg, hp, hq, Except.ok.injEq] at h
        subst h
        have hdir : lookupProxy
            (mapInsert "REJECT" Proxy.reject (mapInsert "DIRECT" Proxy.direct m1))
            "DIRECT" = some Proxy.direct := by
          simp [mapInsert, lookupProxy]
        refine ⟨hdir, by simp [mapInsert, lookupProxy], ?_⟩
        intro addr
        exact matchAddr_isSome_of_direct _ addr Proxy.direct hdir _

/-- C9 witness: updating from the empty config installs the two
built-ins. -/
theorem UpdateConfig_installs_builtins_witness :
    lookupProxy (tunnelAfterUpdate envEmpty tEmpty).proxys "DIRECT" = some Proxy.direct ∧
    lookupProxy (tunnelAfterUpdate envEmpty tEmpty).proxys "REJECT" = some Proxy.reject :=
  have h := UpdateConfig_installs_builtins envEmpty tEmpty
    (tunnelAfterUpdate envEmpty tEmpty) (by rfl)
  ⟨h.1, h.2.1⟩

/-- C10: `Observable.UnSubscribe` with an unregistered subscription
returns with the state untouched and closes nothing; with a registered
one (the listener map's keys being distinct) it closes exactly that
subscriber and removes exactly it — every other handle's membership,
and the rest of the state, are unchanged. -/
theorem UnSubscribe_spec (o : ObservableState) (sub : Nat) :
    (sub ∉ o.listeners → Observable.UnSubscribe o sub = (o, none)) ∧
    (o.listeners.Nodup → sub ∈ o.listeners →
      (Observable.UnSubscribe o sub).2 = some sub ∧
      sub ∉ (Observable.UnSubscribe o sub).1.listeners ∧
      (∀ x, x ≠ sub →
        (x ∈ (Observable.UnSubscribe o sub).1.listeners ↔ x ∈ o.listeners)) ∧
      (Observable.UnSubscribe o sub).1.listeners.length = o.listeners.length - 1 ∧
      (Observable.UnSubscribe o sub).1.done = o.done ∧
      (Observable.UnSubscribe o sub).1.nextId = o.nextId) := by
  constructor
  · intro h
    simp [Observable.UnSubscribe, h]
  · intro hnd hmem
    refine ⟨by simp [Observable.UnSubscribe, hmem], ?_, ?_, ?_,
      by simp [Observable.UnSubscribe, hmem], by simp [Observable.UnSubscribe, hmem]⟩
    · simp only [Observable.UnSubscribe]
      simp [hmem]
      intro h2
      exact absurd h2 (hnd.not_mem_erase)
    · intro x hx
      simp only [Observable.UnSubscribe]
      simp [hmem]
      constructor
      · exact fun h2 => List.mem_of_mem_erase h2
      · exact fun h2 => (List.Nodup.mem_erase_iff hnd).mpr ⟨hx, h2⟩
    · simp only [Observable.UnSubscribe]
      simp [hmem, List.length_erase_of_mem hmem]

/-- C10 witness: an absent handle leaves the set untouched and closes
nothing; a present one is closed and removed. -/
theorem UnSubscribe_spec_witness :
    Observable.UnSubscribe ⟨3, [0, 1, 2], false⟩ 5 = (⟨3, [0, 1, 2], false⟩, none) ∧
    (Observable.UnSubscribe ⟨3, [0, 1, 2], false⟩ 1).2 = some 1 ∧
    1 ∉ (Observable.UnSubscribe ⟨3, [0, 1, 2], false⟩ 1).1.listeners :=
  ⟨(UnSubscribe_spec ⟨3, [0, 1, 2], false⟩ 5).1 (by decide),
    ((UnSubscribe_spec ⟨3, [0, 1, 2], false⟩ 1).2 (by decide) (by decide)).1,
    ((UnSubscribe_spec ⟨3, [0, 1, 2], false⟩ 1).2 (by decide) (by decide)).2.1⟩
